import Mathlib

/-!
Verification development for the orcamento-bot repository.

The definitions below are a shallow embedding of the Python sources under
`src/`: data classes become structures, monetary floats become `ℚ`, calendar
dates become day numbers (`ℤ`, days since 1970-01-01, computed by the
standard civil-calendar conversion), raised exceptions become
`Except PyError`, and JSON dictionaries parsed from LLM responses become
records of `Option`-typed fields (a `none` field models an absent key).
Each definition's doc comment names the source function and lines it embeds.
-/

deriving instance DecidableEq for Except

namespace Orcamento

/-- Python exceptions that the embedded code can raise. `valueError` models
`ValueError` (the ValidationError of the spec taxonomy); `attributeError`
models `AttributeError`, which the services' `except (ValueError, TypeError)`
handlers do not catch. -/
inductive PyError where
  | valueError (msg : String)
  | attributeError (msg : String)
deriving Repr, DecidableEq

/-- Embeds `TransactionItem` (data_models.py lines 10-22): description,
amount (Python float, modelled as `ℚ`), category. -/
structure TransactionItem where
  descricao : String
  valor : ℚ
  categoria : String
deriving Repr, DecidableEq

/-- Embeds `ClassificationData` (data_models.py lines 33-39); `data_compra`
is a day number. -/
structure ClassificationData where
  estabelecimento : String
  data_compra : ℤ
  itens : List TransactionItem
  available_categories : List String
deriving Repr, DecidableEq

/-- Embeds `TransferData` (data_models.py lines 70-77). -/
structure TransferData where
  valor : ℚ
  conta_origem : String
  conta_destino : String
  data_transferencia : ℤ
  descricao : Option String
deriving Repr, DecidableEq

/-! ## Calendar dates

`datetime.strptime(s, "%Y-%m-%d").date()` is embedded as a parser from
`String` to a day number: the civil (proleptic Gregorian) date is validated
(month 1-12, day within the month, leap years handled) and converted to days
since 1970-01-01 by the standard days-from-civil algorithm. All dates the
program handles have positive years, so the integer divisions below only see
nonnegative operands. -/

/-- Numeric value of a list of decimal digit characters. -/
def natOfDigits (cs : List Char) : Nat :=
  cs.foldl (fun a c => a * 10 + (c.toNat - 48)) 0

/-- Gregorian leap-year rule. -/
def isLeapYear (y : ℤ) : Bool :=
  decide ((y % 4 = 0 ∧ y % 100 ≠ 0) ∨ y % 400 = 0)

/-- Number of days in month `m` of year `y`. -/
def daysInMonth (y m : ℤ) : ℤ :=
  if m = 2 then (if isLeapYear y then 29 else 28)
  else if m = 4 ∨ m = 6 ∨ m = 9 ∨ m = 11 then 30
  else 31

/-- Days since 1970-01-01 of the civil date `y-m-d` (days-from-civil
algorithm). -/
def daysFromCivil (y m d : ℤ) : ℤ :=
  let y2 := if m ≤ 2 then y - 1 else y
  let era := (if 0 ≤ y2 then y2 else y2 - 399) / 400
  let yoe := y2 - era * 400
  let mp := (m + 9) % 12
  let doy := (153 * mp + 2) / 5 + d - 1
  let doe := yoe * 365 + yoe / 4 - yoe / 100 + doy
  era * 146097 + doe - 719468

/-- Splits a character list on the dash character (the semantics of
`"a-b-c".split("-")`). -/
def splitOnDash : List Char → List (List Char)
  | [] => [[]]
  | c :: t =>
    if c = '-' then [] :: splitOnDash t
    else
      match splitOnDash t with
      | h :: r => (c :: h) :: r
      | [] => [[c]]

/-- Embeds `datetime.strptime(data_str, "%Y-%m-%d").date()`: `some` day
number when the string is a valid zero-padded civil date, `none` when
parsing raises `ValueError`. -/
def strptimeYmd (s : String) : Option ℤ :=
  match splitOnDash s.toList with
  | [ycs, mcs, dcs] =>
    if ycs.length = 4 ∧ ycs.all Char.isDigit ∧
       1 ≤ mcs.length ∧ mcs.length ≤ 2 ∧ mcs.all Char.isDigit ∧
       1 ≤ dcs.length ∧ dcs.length ≤ 2 ∧ dcs.all Char.isDigit then
      let y : ℤ := (natOfDigits ycs : ℤ)
      let m : ℤ := (natOfDigits mcs : ℤ)
      let d : ℤ := (natOfDigits dcs : ℤ)
      if 1 ≤ y ∧ 1 ≤ m ∧ m ≤ 12 ∧ 1 ≤ d ∧ d ≤ daysInMonth y m then
        some (daysFromCivil y m d)
      else none
    else none
  | _ => none

/-! ## Transfer extraction (`transfer_service.py`) -/

/-- The JSON object parsed from the LLM response inside `process_transfer`
(transfer_service.py line 74), restricted to the documented schema: a `none`
field models an absent (or JSON-null) key. -/
structure TransferResponse where
  valor : Option ℚ
  conta_origem : Option String
  conta_destino : Option String
  descricao : Option String
  data : Option String
deriving Repr, DecidableEq

/-- Embeds the validation-and-construction tail of `_parse_transfer_response`
(transfer_service.py lines 181-197): amount must be positive, both accounts
non-empty, and distinct, in that order; the raised `ValueError`s carry the
source's messages. -/
def transfer_validated (valor : ℚ) (conta_origem conta_destino : String)
    (data_transferencia : ℤ) (descricao : Option String) :
    Except PyError TransferData :=
  if valor ≤ 0 then
    .error (.valueError "Valor da transferência deve ser maior que zero")
  else if conta_origem = "" ∨ conta_destino = "" then
    .error (.valueError "Conta de origem e destino são obrigatórias")
  else if conta_origem = conta_destino then
    .error (.valueError "Conta de origem e destino não podem ser iguais")
  else .ok ⟨valor, conta_origem, conta_destino, data_transferencia, descricao⟩

/-- Embeds `_parse_transfer_response` (transfer_service.py lines 154-197).
When the `data` field is present and parses, the source evaluates
`data_atual - datetime.timedelta(days=30)`; but only the `datetime` class was
imported (`from datetime import date, datetime`), so `datetime.timedelta`
raises an `AttributeError` which the surrounding
`except (ValueError, TypeError)` does not catch: the function raises before
reaching the 30-day comparison and the validations. When the date is absent
or fails to parse, `data_transferencia` falls back to `data_atual` and the
validations run. -/
def parse_transfer_response (pd : TransferResponse) (data_atual : ℤ) :
    Except PyError TransferData :=
  let valor := pd.valor.getD 0
  let conta_origem := pd.conta_origem.getD ""
  let conta_destino := pd.conta_destino.getD ""
  let descricao := match pd.descricao with
    | none => none
    | some s => if s = "" ∨ s = "null" then none else some s
  match pd.data with
  | some data_str =>
    match strptimeYmd data_str with
    | some _ =>
        .error (.attributeError "type object datetime.datetime has no attribute timedelta")
    | none => transfer_validated valor conta_origem conta_destino data_atual descricao
  | none => transfer_validated valor conta_origem conta_destino data_atual descricao

/-! ## Classification extraction (`classification_service.py`) -/

/-- A JSON value in an item's `valor` field: a number, a string, or JSON
null. -/
inductive JVal where
  | num (q : ℚ)
  | str (s : String)
  | null
deriving Repr, DecidableEq

/-- An item dictionary from the LLM response; `none` models an absent key. -/
structure JItem where
  descricao : Option String
  valor : Option JVal
  categoria : Option String
deriving Repr, DecidableEq

/-- Value of a list of decimal digit characters as a rational. -/
def ratOfDigits (cs : List Char) : ℚ :=
  (natOfDigits cs : ℚ)

/-- Embeds Python `float(s)` for the strings that arise here: optional sign,
decimal digits with at most one dot, at least one digit (exponents, `inf`
and `nan` spellings are not modelled; none of the proved claims involve
them). `none` models the raised `ValueError`. -/
def pyFloatOfString (s : String) : Option ℚ :=
  let cs := s.toList
  let sg : ℚ := if cs.head? = some '-' then -1 else 1
  let cs2 := if cs.head? = some '-' ∨ cs.head? = some '+' then cs.drop 1 else cs
  let ip := cs2.takeWhile Char.isDigit
  let rest := cs2.dropWhile Char.isDigit
  match rest with
  | [] => if ip = [] then none else some (sg * ratOfDigits ip)
  | '.' :: t =>
      if t.all Char.isDigit ∧ (ip ≠ [] ∨ t ≠ []) then
        some (sg * (ratOfDigits ip + ratOfDigits t / (10 : ℚ) ^ t.length))
      else none
  | _ => none

/-- Embeds Python `float(v)` on a JSON value: numbers pass through, strings
are parsed, `None` raises `TypeError` (modelled as `none`). -/
def pyFloat (v : JVal) : Option ℚ :=
  match v with
  | .num q => some q
  | .str s => pyFloatOfString s
  | .null => none

/-- Embeds `validate_transaction_item` (classification_service.py lines
274-284): description and category must be truthy (present and non-empty)
and `float(item.get('valor', 0))` must not raise. No sign or finiteness
check is performed. -/
def validate_transaction_item (it : JItem) : Bool :=
  if it.descricao.getD "" = "" ∨ it.categoria.getD "" = "" then false
  else (pyFloat (it.valor.getD (.num 0))).isSome

/-- Embeds `TransactionItem.from_dict` (data_models.py lines 24-30);
`float(...)` failure raises, modelled as `Except`. -/
def TransactionItem.from_dict (it : JItem) : Except PyError TransactionItem :=
  match pyFloat (it.valor.getD (.num 0)) with
  | some q => .ok ⟨it.descricao.getD "", q, it.categoria.getD "a classificar"⟩
  | none => .error (.valueError "could not convert value to float")

/-- The JSON object parsed from the LLM response inside
`classify_image`/`classify_text_expense`, restricted to the documented
dictionary schema (the dead list-shaped fallback of lines 253-256 crashes at
line 235 before it is reached and is not modelled). -/
structure ClassificationResponse where
  estabelecimento : Option String
  data : Option String
  itens : Option (List JItem)
deriving Repr, DecidableEq

/-- Embeds `_parse_classification_response` (classification_service.py lines
232-271): establishment defaults to the sentinel (and is reset to it when
the `itens` key is absent), the date falls back to `date.today()` (the
`today` parameter) when absent, falsy or unparseable — note there is no
30-day staleness clamp here — then every item is validated (first failure
raises `ValueError`) and converted. -/
def parse_classification_response (pd : ClassificationResponse)
    (categories : List String) (today : ℤ) : Except PyError ClassificationData :=
  let estabelecimento :=
    if pd.itens.isSome then pd.estabelecimento.getD "Estabelecimento não identificado"
    else "Estabelecimento não identificado"
  let data_compra := match pd.data with
    | some s => (strptimeYmd s).getD today
    | none => today
  let items_data := pd.itens.getD []
  if items_data.all validate_transaction_item then
    match items_data.mapM TransactionItem.from_dict with
    | .ok items => .ok ⟨estabelecimento, data_compra, items, categories⟩
    | .error e => .error e
  else .error (.valueError "Dados inválidos recebidos da OpenAI")

/-! ## Formatting utilities (`formatters.py`) -/

/-- Sum of the `valor` fields of a list of items (the
`sum(float(item.get('valor', 0)) for item in items)` idiom). -/
def sumValores (items : List TransactionItem) : ℚ :=
  (items.map TransactionItem.valor).sum

/-- Embeds Python `round(x, 2)` over `ℚ`: rounding to the nearest multiple
of 1/100 (ties resolved upward; the source rounds binary floats half-to-even,
but every property proved below only uses that the result is within 1/200 of
the argument, which holds for either tie rule). -/
def roundTo2 (q : ℚ) : ℚ :=
  ((Int.floor (q * 100 + 1 / 2) : ℤ) : ℚ) / 100

/-- The scaling loop of `redistribute_values_for_total` (formatters.py lines
86-90): each item is copied with `valor` rescaled by `factor` and rounded to
2 decimal places. -/
def scaleItems (items : List TransactionItem) (factor : ℚ) : List TransactionItem :=
  items.map (fun it => { it with valor := roundTo2 (it.valor * factor) })

/-- The correction step of `redistribute_values_for_total` (formatters.py
lines 96-98): `updated_items[-1]['valor'] = round(updated_items[-1]['valor']
+ diff, 2)` — the last item's value absorbs the residual delta. -/
def adjustLastValor (items : List TransactionItem) (diff : ℚ) : List TransactionItem :=
  match items with
  | [] => []
  | [it] => [{ it with valor := roundTo2 (it.valor + diff) }]
  | it :: rest => it :: adjustLastValor rest diff

/-- Embeds `redistribute_values_for_total` (formatters.py lines 71-100):
empty list and zero current total are returned unchanged; otherwise every
value is rescaled by `target_total / current_total` and rounded, and if the
resulting sum misses the target by more than 0.01 the difference is added to
the last item (re-rounded). -/
def redistribute_values_for_total (items : List TransactionItem)
    (target_total : ℚ) : List TransactionItem :=
  if items = [] then items
  else if sumValores items = 0 then items
  else if 1 / 100 <
      |sumValores (scaleItems items (target_total / sumValores items)) - target_total| then
    adjustLastValor (scaleItems items (target_total / sumValores items))
      (target_total - sumValores (scaleItems items (target_total / sumValores items)))
  else scaleItems items (target_total / sumValores items)

/-! ## String helpers shared by the services

Python string operations used by the deterministic edit path and the keyword
fallbacks: `str.lower`, the `in` substring test, `str.replace(',', '.')`. -/

/-- Embeds `str.lower()` (ASCII case folding; every string these claims
evaluate on is unaffected by non-ASCII case differences). -/
def pyLower (s : String) : String :=
  String.mk (s.toList.map Char.toLower)

/-- Boolean substring test on character lists. -/
def infixAux (pat : List Char) : List Char → Bool
  | [] => pat.isEmpty
  | c :: rest => pat.isPrefixOf (c :: rest) || infixAux pat rest

/-- Embeds the Python `sub in s` substring test. -/
def pyIn (sub s : String) : Bool :=
  infixAux sub.toList s.toList

/-- Embeds `s.replace(',', '.')`. -/
def replaceCommaDot (s : String) : String :=
  String.mk (s.toList.map (fun c => if c = ',' then '.' else c))

/-! ## The target-total regex of `edit_classification`

`re.search(r'total.*?r?\$?\s*([\d,]+\.?\d*)', user_input)` is embedded
directly. The regex begins with the literal `total`, so the search finds the
first occurrence of `total` and then — because `.*?` is lazy — the earliest
following position where `r? \$? \s* ([\d,]+ \.? \d*)` matches, returning
the captured group. (If no digit-or-comma occurs after the first `total`,
no later occurrence of `total` can match either, so scanning from the first
occurrence is exact.) At a fixed position the optional `r`, optional `$` and
greedy `\s*` never need backtracking, because a position rejected after
consuming them would also be rejected without them. -/

/-- Python `\s` whitespace class. -/
def pyIsSpaceChar (c : Char) : Bool :=
  c = ' ' || c = '\t' || c = '\n' || c = '\r' || c = '\x0b' || c = '\x0c'

/-- Character class `[\d,]`. -/
def isDigitOrComma (c : Char) : Bool :=
  c.isDigit || c = ','

/-- Matches `r? \$? \s* ([\d,]+ \.? \d*)` at a fixed position, returning the
captured group. -/
def matchGroupAt (cs : List Char) : Option (List Char) :=
  let cs1 := match cs with | 'r' :: t => t | _ => cs
  let cs2 := match cs1 with | '$' :: t => t | _ => cs1
  let cs3 := cs2.dropWhile pyIsSpaceChar
  match cs3.takeWhile isDigitOrComma with
  | [] => none
  | run =>
    match cs3.dropWhile isDigitOrComma with
    | '.' :: t => some (run ++ '.' :: t.takeWhile Char.isDigit)
    | _ => some run

/-- Lazy scan for the earliest position where `matchGroupAt` succeeds. -/
def searchGroupFrom : List Char → Option (List Char)
  | [] => none
  | c :: rest =>
    match matchGroupAt (c :: rest) with
    | some g => some g
    | none => searchGroupFrom rest

/-- Drops input up to and including the first occurrence of `total`;
`none` when `total` does not occur. -/
def dropThroughTotal : List Char → Option (List Char)
  | [] => none
  | c :: rest =>
    if ("total".toList).isPrefixOf (c :: rest) then some ((c :: rest).drop 5)
    else dropThroughTotal rest

/-- The captured group of
`re.search(r'total.*?r?\$?\s*([\d,]+\.?\d*)', s)` (classification_service.py
line 122), or `none` when the regex does not match. -/
def searchTotalGroup (s : String) : Option String :=
  match dropThroughTotal s.toList with
  | none => none
  | some rest => (searchGroupFrom rest).map String.mk

/-- Embeds the category lexicon of `edit_classification`
(classification_service.py lines 126-134), applied to the lowered command. -/
def targetCategory (ui : String) : Option String :=
  if pyIn "alimentação básica" ui || pyIn "alimentacao basica" ui then
    some "Alimentação - Básica"
  else if pyIn "alimentação supérflua" ui || pyIn "alimentacao superflua" ui then
    some "Alimentação - Supérflua"
  else if pyIn "casa" ui && pyIn "manutenção" ui then
    some "Casa - Manutenção"
  else if pyIn "higiene" ui then
    some "Higiene & Beleza - Básicos"
  else none

/-! ## `edit_classification` (classification_service.py) -/

/-- Python truthiness of the optional parsed `target_total`: a parsed value
of `0.0` is falsy, exactly as in `if target_category or target_total:` and
`if target_total:`. -/
def truthyQ : Option ℚ → Bool
  | none => false
  | some q => decide (q ≠ 0)

/-- The body of the deterministic branch of `edit_classification`
(classification_service.py lines 136-157), given the extracted triggers:
when either trigger is truthy, the items are (shallow-)copied, the category
is reassigned to all items if one was found, values are redistributed if a
non-zero total was found, and a fresh `ClassificationData` with the
remaining fields of `current` is returned. Returns `none` when neither
trigger is truthy and the source falls through to the LLM-driven edit. -/
def detCont (current : ClassificationData) (tc : Option String) (tt : Option ℚ) :
    Option (Except PyError ClassificationData) :=
  if tc.isSome || truthyQ tt then
    let updated1 := if tc.isSome then
        current.itens.map (fun it => { it with categoria := tc.getD "" })
      else current.itens
    let updated2 := if truthyQ tt then
        redistribute_values_for_total updated1 (tt.getD 0)
      else updated1
    some (.ok { current with itens := updated2 })
  else none

/-- Embeds `edit_classification` (classification_service.py lines 112-157)
up to the LLM fallback: the command is lowered, the target-total regex and
the category lexicon are applied, and the deterministic branch runs when a
trigger is found. `float()` failure on the captured group raises (the outer
handler re-raises). A `none` result models falling through to the LLM-driven
edit (whose outcome depends on the LLM response and is embedded separately
as `edit_classification_llm`). -/
def edit_classification_det (current : ClassificationData) (user_command : String) :
    Option (Except PyError ClassificationData) :=
  let ui := pyLower user_command
  match searchTotalGroup ui with
  | some g =>
    match pyFloatOfString (replaceCommaDot g) with
    | none => some (.error (.valueError "could not convert string to float"))
    | some t => detCont current (targetCategory ui) (some t)
  | none => detCont current (targetCategory ui) none

/-- Embeds the LLM branch of `edit_classification`
(classification_service.py lines 211-226), applied to the item list parsed
from the LLM response: every item is validated (`ValueError` on the first
invalid one), converted, and returned in a fresh `ClassificationData`
keeping the other fields of `current`. -/
def edit_classification_llm (current : ClassificationData) (updated : List JItem) :
    Except PyError ClassificationData :=
  if updated.all validate_transaction_item then
    match updated.mapM TransactionItem.from_dict with
    | .ok items => .ok { current with itens := items }
    | .error e => .error e
  else .error (.valueError "Dados inválidos na edição")

/-! ## `edit_transfer` (transfer_service.py) -/

/-- The JSON object parsed from the LLM edit response inside `edit_transfer`
(transfer_service.py line 134). The prompt shows the LLM the keys of
`current_data.to_dict()`, so updates use those keys; a `none` field models a
key absent from the update. `descricao := some none` models an explicit JSON
null for the description. -/
structure TransferUpdate where
  valor : Option ℚ
  conta_origem : Option String
  conta_destino : Option String
  data_transferencia : Option String
  descricao : Option (Option String)
deriving Repr, DecidableEq

/-- `"valor" in updated_data and updated_data["valor"] <= 0`. -/
def updateValorBad (upd : TransferUpdate) : Bool :=
  match upd.valor with
  | some v => decide (v ≤ 0)
  | none => false

/-- `"conta_origem" in updated_data and "conta_destino" in updated_data`
and the two are equal — note the equality is checked only when the update
itself carries both keys. -/
def updateContasIguais (upd : TransferUpdate) : Bool :=
  match upd.conta_origem, upd.conta_destino with
  | some o, some d => decide (o = d)
  | _, _ => false

/-- The merge `merged_data = current_data.to_dict(); merged_data.update(
updated_data)` followed by `TransferData.from_dict(merged_data)`
(transfer_service.py lines 145-148): absent update fields keep the current
values (round-tripping the current date through `isoformat` and
`fromisoformat` is the identity); an updated date string is parsed with the
`date.today()` fallback of `TransferData.from_dict` (data_models.py lines
88-107). -/
def merged_transfer (current : TransferData) (upd : TransferUpdate)
    (today : ℤ) : TransferData :=
  { valor := upd.valor.getD current.valor
  , conta_origem := upd.conta_origem.getD current.conta_origem
  , conta_destino := upd.conta_destino.getD current.conta_destino
  , data_transferencia := match upd.data_transferencia with
      | some s => (strptimeYmd s).getD today
      | none => current.data_transferencia
  , descricao := match upd.descricao with
      | some d => d
      | none => current.descricao }

/-- Embeds `edit_transfer` (transfer_service.py lines 82-152) after the LLM
response has been JSON-parsed into `upd`: amount validated only when the
update carries `valor`, account equality validated only when the update
carries both account keys, then merge and rebuild. -/
def edit_transfer (current : TransferData) (upd : TransferUpdate)
    (today : ℤ) : Except PyError TransferData :=
  if updateValorBad upd then
    .error (.valueError "Valor da transferência deve ser maior que zero")
  else if updateContasIguais upd then
    .error (.valueError "Conta de origem e destino não podem ser iguais")
  else .ok (merged_transfer current upd today)

/-! ## The keyword fallback of `process_user_input` (openai_service.py) -/

/-- Embeds `AIResponse` (data_models.py lines 157-162) restricted to the
fields the fallback constructs (its optional `data` field is always absent
there). -/
structure AIResponse where
  action : String
  message : String
deriving Repr, DecidableEq

/-- The confirmation keywords of the fallback (openai_service.py line 207). -/
def confirm_keywords : List String :=
  ["sim", "ok", "pode seguir", "confirmo", "correto", "manda bala", "confirma"]

/-- The edit keywords of the fallback (openai_service.py line 209). -/
def edit_keywords : List String :=
  ["troque", "mude", "altere", "corrija"]

/-- The help keywords of the fallback (openai_service.py line 211). -/
def help_keywords : List String :=
  ["ajuda", "help", "comandos"]

/-- Embeds the `except json.JSONDecodeError` fallback of `process_user_input`
(openai_service.py lines 203-214): the user input is lowered and the keyword
groups are tried in order confirm, edit, help; anything unrecognized becomes
action `account`. -/
def process_user_input_fallback (user_input : String) : AIResponse :=
  let l := pyLower user_input
  if confirm_keywords.any (fun k => pyIn k l) then
    ⟨"confirm", "Confirmação recebida"⟩
  else if edit_keywords.any (fun k => pyIn k l) then
    ⟨"edit", "Editando classificação"⟩
  else if help_keywords.any (fun k => pyIn k l) then
    ⟨"help", "Mostrando ajuda"⟩
  else ⟨"account", "Processando como conta"⟩

/-! ## The save handlers and the state store (event_handlers.py,
state_manager.py) -/

/-- Embeds `UserContext` (data_models.py lines 110-119). -/
structure UserContext where
  user_id : String
  thread_id : String
  attachment_url : Option String
  message_content : Option String
  classification_data : Option ClassificationData
  transfer_data : Option TransferData
  waiting_for_account : Bool
deriving Repr, DecidableEq

/-- The `StateManager.user_contexts` mapping (state_manager.py line 19),
thread id to context. -/
def Store : Type := String → Option UserContext

/-- Embeds `StateManager.remove_context` (state_manager.py lines 93-97):
the entry for `tid` is deleted (a no-op when absent). -/
def remove_context (st : Store) (tid : String) : Store :=
  fun k => if k = tid then none else st k

/-- Embeds the store effect of `_save_transactions` (event_handlers.py lines
319-357). The externally produced values are parameters: `conta` is the
account returned by `identify_account`, `available_accounts` the ledger's
account list, and `insert_result` the `(saved_count, error_count)` pair
returned by `insert_grouped_transactions`. When the account list is
non-empty and does not contain `conta`, the handler returns early and the
store is untouched; otherwise `remove_context` runs unconditionally — the
insert result is not consulted for the removal decision. -/
def save_transactions_store (st : Store) (tid : String)
    (available_accounts : List String) (conta : String)
    (insert_result : Nat × Nat) : Store :=
  if available_accounts ≠ [] ∧ conta ∉ available_accounts then st
  else
    let _ := insert_result
    remove_context st tid

/-- Embeds the store effect of `_save_transfer` (event_handlers.py lines
359-384): on reported insert failure the handler returns before removal; on
success the context is removed. -/
def save_transfer_store (st : Store) (tid : String)
    (insert_success : Bool) : Store :=
  if insert_success then remove_context st tid else st

/-! ## Object identity in the deterministic category edit

The deterministic branch of `edit_classification` runs
`updated_items = current_data.itens.copy()` — a shallow copy sharing the
`TransactionItem` objects — and then `item.categoria = target_category` on
each shared object. To state this aliasing, items are modelled as references
into an explicit heap: a `ClassificationDataRef` holds item ids, and the
category assignment is a heap update. -/

/-- An object heap mapping item ids to `TransactionItem` values. -/
structure Heap where
  items : Nat → TransactionItem

/-- The in-place `item.categoria = target_category` assignment
(classification_service.py line 143) on the object with id `i`. -/
def setCategoria (h : Heap) (i : Nat) (c : String) : Heap :=
  ⟨fun j => if j = i then { h.items i with categoria := c } else h.items j⟩

/-- `ClassificationData` with items as heap references. -/
structure ClassificationDataRef where
  estabelecimento : String
  data_compra : ℤ
  itens : List Nat
  available_categories : List String

/-- Embeds lines 137-157 of classification_service.py at the heap level, for
the case where only a category trigger fires (no truthy target total):
`itens.copy()` duplicates the id list but shares the objects, the `for` loop
mutates each shared object's category in place, and a fresh
`ClassificationDataRef` carrying the same ids and the remaining fields of
`current` is returned together with the mutated heap. -/
def edit_det_category_heap (h : Heap) (current : ClassificationDataRef)
    (target : String) : Heap × ClassificationDataRef :=
  let updated_items := current.itens
  let h2 := updated_items.foldl (fun hh i => setCategoria hh i target) h
  (h2, { current with itens := updated_items })

/-! ## Lemmas about the formatters -/

@[simp] theorem sumValores_nil : sumValores [] = 0 := rfl

@[simp] theorem sumValores_cons (it : TransactionItem) (l : List TransactionItem) :
    sumValores (it :: l) = it.valor + sumValores l := by
  simp [sumValores]

/-- Rounding to 2 decimal places moves a rational by at most half a cent. -/
theorem roundTo2_near (q : ℚ) : |roundTo2 q - q| ≤ 1 / 200 := by
  unfold roundTo2
  have h1 : ((Int.floor (q * 100 + 1 / 2) : ℤ) : ℚ) ≤ q * 100 + 1 / 2 :=
    Int.floor_le _
  have h2 : q * 100 + 1 / 2 < ((Int.floor (q * 100 + 1 / 2) : ℤ) : ℚ) + 1 :=
    Int.lt_floor_add_one _
  rw [abs_le]
  constructor
  · linarith
  · linarith

theorem adjustLastValor_length (l : List TransactionItem) (d : ℚ) :
    (adjustLastValor l d).length = l.length := by
  induction l with
  | nil => rfl
  | cons it rest ih =>
    cases rest with
    | nil => rfl
    | cons b bs =>
      have he : adjustLastValor (it :: b :: bs) d
          = it :: adjustLastValor (b :: bs) d := rfl
      rw [he, List.length_cons, List.length_cons, ih]

theorem adjustLastValor_take (l : List TransactionItem) (d : ℚ) :
    (adjustLastValor l d).take (l.length - 1) = l.take (l.length - 1) := by
  induction l with
  | nil => rfl
  | cons it rest ih =>
    cases rest with
    | nil => rfl
    | cons b bs =>
      have he : adjustLastValor (it :: b :: bs) d
          = it :: adjustLastValor (b :: bs) d := rfl
      rw [he]
      simp only [List.length_cons, Nat.add_sub_cancel, List.take_succ_cons]
      have hb : (b :: bs).length - 1 = bs.length := by simp
      rw [hb] at ih
      rw [ih]

/-- The correction step changes the sum by replacing the last value `x` with
`roundTo2 (x + d)`. -/
theorem adjustLastValor_sum (l : List TransactionItem) (d : ℚ) (h : l ≠ []) :
    ∃ x : ℚ, sumValores (adjustLastValor l d)
      = sumValores l - x + roundTo2 (x + d) := by
  induction l with
  | nil => exact absurd rfl h
  | cons it rest ih =>
    cases rest with
    | nil =>
      refine ⟨it.valor, ?_⟩
      show sumValores [{ it with valor := roundTo2 (it.valor + d) }] = _
      simp
    | cons b bs =>
      obtain ⟨x, hx⟩ := ih (by simp)
      refine ⟨x, ?_⟩
      have he : adjustLastValor (it :: b :: bs) d
          = it :: adjustLastValor (b :: bs) d := rfl
      rw [he, sumValores_cons, hx]
      simp only [sumValores_cons]
      ring

@[simp] theorem scaleItems_length (l : List TransactionItem) (f : ℚ) :
    (scaleItems l f).length = l.length := by
  simp [scaleItems]

/-- C2: for every non-empty item list with positive current total and every
non-negative target, `redistribute_values_for_total` keeps the item count,
only the last item can differ from the plain rescale-and-round of the
corresponding input item, and the resulting sum is within 0.01 of the
target. -/
theorem C2_redistribute_total (items : List TransactionItem) (target : ℚ)
    (hne : items ≠ []) (hpos : 0 < sumValores items) (htgt : 0 ≤ target) :
    (redistribute_values_for_total items target).length = items.length ∧
    (redistribute_values_for_total items target).take (items.length - 1)
      = (scaleItems items (target / sumValores items)).take (items.length - 1) ∧
    |sumValores (redistribute_values_for_total items target) - target| ≤ 1 / 100 := by
  have hz : sumValores items ≠ 0 := ne_of_gt hpos
  unfold redistribute_values_for_total
  rw [if_neg hne, if_neg hz]
  have hlen_u : (scaleItems items (target / sumValores items)).length
      = items.length := scaleItems_length items _
  by_cases hc : 1 / 100 <
      |sumValores (scaleItems items (target / sumValores items)) - target|
  · rw [if_pos hc]
    set u := scaleItems items (target / sumValores items) with hu
    have hune : u ≠ [] := by
      intro h0
      apply hne
      have : items.length = 0 := by rw [← hlen_u, h0]; rfl
      exact List.length_eq_zero.mp this
    obtain ⟨x, hx⟩ := adjustLastValor_sum u (target - sumValores u) hune
    refine ⟨?_, ?_, ?_⟩
    · rw [adjustLastValor_length, hlen_u]
    · rw [← hlen_u]
      exact adjustLastValor_take u (target - sumValores u)
    · rw [hx]
      have hnear := roundTo2_near (x + (target - sumValores u))
      have heq : sumValores u - x + roundTo2 (x + (target - sumValores u)) - target
          = roundTo2 (x + (target - sumValores u)) - (x + (target - sumValores u)) := by
        ring
      rw [heq]
      have h12 : (1 : ℚ) / 200 ≤ 1 / 100 := by norm_num
      exact le_trans hnear h12
  · rw [if_neg hc]
    push_neg at hc
    exact ⟨hlen_u, rfl, hc⟩

/-- Witness for C2 at a concrete input. -/
theorem C2_redistribute_total_witness :
    (redistribute_values_for_total [⟨"a", 1, "x"⟩] 2).length
        = ([⟨"a", 1, "x"⟩] : List TransactionItem).length ∧
    (redistribute_values_for_total [⟨"a", 1, "x"⟩] 2).take 0
        = (scaleItems [⟨"a", 1, "x"⟩] (2 / sumValores [⟨"a", 1, "x"⟩])).take 0 ∧
    |sumValores (redistribute_values_for_total [⟨"a", 1, "x"⟩] 2) - 2| ≤ 1 / 100 :=
  C2_redistribute_total [⟨"a", 1, "x"⟩] 2 (by decide) (by norm_num [sumValores])
    (by norm_num)

/-! ## C1: the stale-date clamp -/

/-- C1 counterexample: an extraction result dated 2025-08-28, parsed when
today is 2025-10-12 (45 days later, more than 30), does NOT yield today's
date: the classification parser returns the stale date unchanged, and the
transfer parser raises `AttributeError` instead of returning any
`TransferData` at all. -/
theorem C1_counterexample :
    parse_classification_response
        ⟨some "X", some "2025-08-28", some [⟨some "a", some (.num 1), some "c"⟩]⟩
        ["c"] (daysFromCivil 2025 10 12)
      = .ok ⟨"X", daysFromCivil 2025 8 28, [⟨"a", 1, "c"⟩], ["c"]⟩ ∧
    daysFromCivil 2025 10 12 - daysFromCivil 2025 8 28 = 45 ∧
    daysFromCivil 2025 8 28 ≠ daysFromCivil 2025 10 12 ∧
    parse_transfer_response ⟨some 100, some "A", some "B", none, some "2025-08-28"⟩
        (daysFromCivil 2025 10 12)
      = .error (.attributeError "type object datetime.datetime has no attribute timedelta") := by
  refine ⟨rfl, by decide, by decide, rfl⟩

/-- C1 amended: the classification parser applies no staleness clamp — any
extraction result whose date string parses yields exactly that date as
`data_compra`, however old; and the transfer parser, for any result whose
date string parses (stale or not), raises an uncaught `AttributeError` from
the `datetime.timedelta` slip instead of returning a `TransferData`. -/
theorem C1_amended_no_clamp (pd : ClassificationResponse) (cats : List String)
    (today d : ℤ) (s : String) (hs : pd.data = some s)
    (hd : strptimeYmd s = some d) :
    (∀ cd, parse_classification_response pd cats today = .ok cd →
      cd.data_compra = d) ∧
    (∀ tr : TransferResponse, tr.data = some s →
      parse_transfer_response tr today
        = .error (.attributeError "type object datetime.datetime has no attribute timedelta")) := by
  constructor
  · intro cd hcd
    simp only [parse_classification_response, hs, hd, Option.getD_some] at hcd
    split at hcd
    · split at hcd
      · cases hcd
        rfl
      · exact Except.noConfusion hcd
    · exact Except.noConfusion hcd
  · intro tr htr
    simp only [parse_transfer_response, htr, hd]

/-- Witness for C1 amended at the 45-day-old input. -/
theorem C1_amended_no_clamp_witness :
    parse_transfer_response ⟨some 100, some "A", some "B", none, some "2025-08-28"⟩
        (daysFromCivil 2025 10 12)
      = .error (.attributeError "type object datetime.datetime has no attribute timedelta") :=
  (C1_amended_no_clamp
      ⟨some "X", some "2025-08-28", some [⟨some "a", some (.num 1), some "c"⟩]⟩
      ["c"] (daysFromCivil 2025 10 12) (daysFromCivil 2025 8 28) "2025-08-28"
      rfl (by decide)).2
    ⟨some 100, some "A", some "B", none, some "2025-08-28"⟩ rfl

/-! ## C3: transfer extraction validation -/

/-- C3: evaluation at the failing input. A parsed transfer response with
amount 0 and a parseable (current!) date fails with `AttributeError` — the
`datetime.timedelta` slip fires before the amount/account validations — not
with the claimed ValidationError; when the response carries no parseable
date, the three validations behave exactly as the claim states. -/
theorem C3_transfer_validation_eval :
    parse_transfer_response ⟨some 0, some "A", some "B", none, some "2025-10-12"⟩
        (daysFromCivil 2025 10 12)
      = .error (.attributeError "type object datetime.datetime has no attribute timedelta") ∧
    parse_transfer_response ⟨some 0, some "A", some "B", none, none⟩
        (daysFromCivil 2025 10 12)
      = .error (.valueError "Valor da transferência deve ser maior que zero") ∧
    parse_transfer_response ⟨some 5, some "A", some "A", none, none⟩
        (daysFromCivil 2025 10 12)
      = .error (.valueError "Conta de origem e destino não podem ser iguais") ∧
    parse_transfer_response ⟨some 5, some "", some "B", none, none⟩
        (daysFromCivil 2025 10 12)
      = .error (.valueError "Conta de origem e destino são obrigatórias") := by
  refine ⟨rfl, rfl, rfl, rfl⟩

/-! ## C4: the transfer-edit equality check -/

/-- C4 counterexample: merging an LLM edit that updates only the source
account to the value of the current destination account is NOT rejected —
`edit_transfer` returns a `TransferData` whose source and destination
accounts are equal, because the equality check only runs when the update
carries both account keys. -/
theorem C4_counterexample :
    edit_transfer ⟨100, "A", "B", 0, none⟩ ⟨none, some "B", none, none, none⟩ 0
      = .ok ⟨100, "B", "B", 0, none⟩ ∧
    (⟨100, "B", "B", 0, none⟩ : TransferData).conta_origem
      = (⟨100, "B", "B", 0, none⟩ : TransferData).conta_destino :=
  ⟨rfl, rfl⟩

/-- C4 amended: `edit_transfer` fails with the equal-accounts ValidationError
exactly when the parsed LLM response itself carries both account fields with
equal values (and the amount check did not already fail); when the response
omits one of the two account fields, no equality check is performed and the
merged result may have equal accounts (see the counterexample). -/
theorem C4_amended_equality_check (current : TransferData) (upd : TransferUpdate)
    (today : ℤ) (o d : String) (ho : upd.conta_origem = some o)
    (hd : upd.conta_destino = some d) (heq : o = d)
    (hv : updateValorBad upd = false) :
    edit_transfer current upd today
      = .error (.valueError "Conta de origem e destino não podem ser iguais") := by
  have hc : updateContasIguais upd = true := by
    unfold updateContasIguais
    rw [ho, hd]
    simp [heq]
  simp [edit_transfer, hv, hc]

/-- Witness for C4 amended at a concrete input. -/
theorem C4_amended_equality_check_witness :
    edit_transfer ⟨100, "A", "B", 0, none⟩ ⟨none, some "B", some "B", none, none⟩ 0
      = .error (.valueError "Conta de origem e destino não podem ser iguais") :=
  C4_amended_equality_check ⟨100, "A", "B", 0, none⟩
    ⟨none, some "B", some "B", none, none⟩ 0 "B" "B" rfl rfl rfl rfl

/-! ## C5: hard rejection of malformed items -/

/-- C5: an item with an empty (or missing) description, an empty (or
missing) category, or a value that does not parse as a number causes both
the extraction parser and the LLM-driven edit to fail with the respective
`ValueError`, so no `ClassificationData` is returned. -/
theorem C5_invalid_item_rejected (pd : ClassificationResponse)
    (cats : List String) (today : ℤ) (l : List JItem) (it : JItem)
    (hl : pd.itens = some l) (hit : it ∈ l)
    (hbad : it.descricao.getD "" = "" ∨ it.categoria.getD "" = ""
        ∨ pyFloat (it.valor.getD (.num 0)) = none)
    (current : ClassificationData) :
    parse_classification_response pd cats today
      = .error (.valueError "Dados inválidos recebidos da OpenAI") ∧
    edit_classification_llm current l
      = .error (.valueError "Dados inválidos na edição") := by
  have hv : validate_transaction_item it = false := by
    unfold validate_transaction_item
    rcases hbad with h | h | h
    · rw [if_pos (Or.inl h)]
    · rw [if_pos (Or.inr h)]
    · by_cases hdc : it.descricao.getD "" = "" ∨ it.categoria.getD "" = ""
      · rw [if_pos hdc]
      · rw [if_neg hdc, h]
        rfl
  have hall : l.all validate_transaction_item = false := by
    cases hha : l.all validate_transaction_item
    · rfl
    · exfalso
      have := (List.all_eq_true.mp hha) it hit
      rw [hv] at this
      exact Bool.noConfusion this
  constructor
  · simp [parse_classification_response, hl, hall]
  · simp [edit_classification_llm, hall]

/-- Witness for C5 at an item with empty description. -/
theorem C5_invalid_item_rejected_witness :
    parse_classification_response
        ⟨some "X", none, some [⟨some "", some (.num 1), some "c"⟩]⟩ ["c"] 0
      = .error (.valueError "Dados inválidos recebidos da OpenAI") ∧
    edit_classification_llm ⟨"X", 0, [], ["c"]⟩ [⟨some "", some (.num 1), some "c"⟩]
      = .error (.valueError "Dados inválidos na edição") :=
  C5_invalid_item_rejected
    ⟨some "X", none, some [⟨some "", some (.num 1), some "c"⟩]⟩ ["c"] 0
    [⟨some "", some (.num 1), some "c"⟩] ⟨some "", some (.num 1), some "c"⟩
    rfl (by decide) (Or.inl rfl) ⟨"X", 0, [], ["c"]⟩

/-! ## C6: no sign check on item amounts -/

/-- C6 counterexample: an item whose value parses to the negative number -5
passes validation and is returned inside the `ClassificationData` with its
negative amount. -/
theorem C6_counterexample :
    parse_classification_response
        ⟨some "X", none, some [⟨some "a", some (.num (-5)), some "c"⟩]⟩ ["c"] 0
      = .ok ⟨"X", 0, [⟨"a", -5, "c"⟩], ["c"]⟩ ∧
    (-5 : ℚ) < 0 :=
  ⟨rfl, by norm_num⟩

/-- C6 amended: item validation only requires a non-empty description, a
non-empty category, and that the value parses as a number — the sign is not
checked, and the parsed value (negative included) is passed through
unchanged by the conversion to `TransactionItem`. -/
theorem C6_amended_sign_unchecked (it : JItem) (q : ℚ)
    (hdesc : it.descricao.getD "" ≠ "") (hcat : it.categoria.getD "" ≠ "")
    (hval : pyFloat (it.valor.getD (.num 0)) = some q) :
    validate_transaction_item it = true ∧
    TransactionItem.from_dict it
      = .ok ⟨it.descricao.getD "", q, it.categoria.getD "a classificar"⟩ := by
  constructor
  · unfold validate_transaction_item
    rw [if_neg (by push_neg; exact ⟨hdesc, hcat⟩), hval]
    rfl
  · unfold TransactionItem.from_dict
    rw [hval]

/-- Witness for C6 amended at a negative-valued item. -/
theorem C6_amended_sign_unchecked_witness :
    validate_transaction_item ⟨some "a", some (.num (-5)), some "c"⟩ = true ∧
    TransactionItem.from_dict ⟨some "a", some (.num (-5)), some "c"⟩
      = .ok ⟨"a", -5, "c"⟩ :=
  C6_amended_sign_unchecked ⟨some "a", some (.num (-5)), some "c"⟩ (-5)
    (by decide) (by decide) rfl

/-! ## C7: the deterministic total edit -/

/-- C7: editing the 3-item classification (10, 20, 30; total 60) with the
command `total is 120` takes the deterministic path — the embedding of the
LLM fallback is not reached (the result is `some _`) — and returns the items
scaled to 20, 40, 60 with establishment, purchase date and available
categories unchanged, summing exactly to 120. -/
theorem C7_deterministic_total_edit :
    edit_classification_det
        ⟨"Mercado", daysFromCivil 2025 10 12,
          [⟨"item1", 10, "Alimentação - Básica"⟩, ⟨"item2", 20, "Transporte"⟩,
            ⟨"item3", 30, "Lazer"⟩],
          ["Alimentação - Básica", "Transporte", "Lazer"]⟩
        "total is 120"
      = some (.ok ⟨"Mercado", daysFromCivil 2025 10 12,
          [⟨"item1", 20, "Alimentação - Básica"⟩, ⟨"item2", 40, "Transporte"⟩,
            ⟨"item3", 60, "Lazer"⟩],
          ["Alimentação - Básica", "Transporte", "Lazer"]⟩) ∧
    sumValores [⟨"item1", 20, "Alimentação - Básica"⟩,
        ⟨"item2", 40, "Transporte"⟩, ⟨"item3", 60, "Lazer"⟩] = 120 := by
  have hs : searchTotalGroup (pyLower "total is 120") = some "120" := by decide
  have hf : pyFloatOfString (replaceCommaDot "120") = some 120 := by
    show some ((1 : ℚ) * ((120 : ℕ) : ℚ)) = some 120
    norm_num
  have hc : targetCategory (pyLower "total is 120") = none := by decide
  have hne : ([⟨"item1", 10, "Alimentação - Básica"⟩, ⟨"item2", 20, "Transporte"⟩,
      ⟨"item3", 30, "Lazer"⟩] : List TransactionItem) ≠ [] := by decide
  have hsum : sumValores [⟨"item1", 10, "Alimentação - Básica"⟩,
      ⟨"item2", 20, "Transporte"⟩, ⟨"item3", 30, "Lazer"⟩] = 60 := by
    norm_num [sumValores]
  have hscale : scaleItems [⟨"item1", 10, "Alimentação - Básica"⟩,
      ⟨"item2", 20, "Transporte"⟩, ⟨"item3", 30, "Lazer"⟩] (120 / 60)
      = [⟨"item1", 20, "Alimentação - Básica"⟩, ⟨"item2", 40, "Transporte"⟩,
        ⟨"item3", 60, "Lazer"⟩] := by
    simp only [scaleItems, List.map_cons, List.map_nil]
    norm_num [roundTo2]
  have hsum2 : sumValores [⟨"item1", 20, "Alimentação - Básica"⟩,
      ⟨"item2", 40, "Transporte"⟩, ⟨"item3", 60, "Lazer"⟩] = 120 := by
    norm_num [sumValores]
  have hred : redistribute_values_for_total
      [⟨"item1", 10, "Alimentação - Básica"⟩, ⟨"item2", 20, "Transporte"⟩,
        ⟨"item3", 30, "Lazer"⟩] 120
      = [⟨"item1", 20, "Alimentação - Básica"⟩, ⟨"item2", 40, "Transporte"⟩,
        ⟨"item3", 60, "Lazer"⟩] := by
    unfold redistribute_values_for_total
    rw [if_neg hne, hsum, if_neg (by norm_num : ¬ (60 : ℚ) = 0), hscale, hsum2,
      if_neg (by norm_num : ¬ (1 / 100 : ℚ) < |(120 : ℚ) - 120|)]
  constructor
  · calc edit_classification_det
          ⟨"Mercado", daysFromCivil 2025 10 12,
            [⟨"item1", 10, "Alimentação - Básica"⟩, ⟨"item2", 20, "Transporte"⟩,
              ⟨"item3", 30, "Lazer"⟩],
            ["Alimentação - Básica", "Transporte", "Lazer"]⟩
          "total is 120"
        = detCont
            ⟨"Mercado", daysFromCivil 2025 10 12,
              [⟨"item1", 10, "Alimentação - Básica"⟩, ⟨"item2", 20, "Transporte"⟩,
                ⟨"item3", 30, "Lazer"⟩],
              ["Alimentação - Básica", "Transporte", "Lazer"]⟩
            (targetCategory (pyLower "total is 120")) (some 120) := by
          simp only [edit_classification_det, hs, hf]
      _ = some (.ok ⟨"Mercado", daysFromCivil 2025 10 12,
            redistribute_values_for_total
              [⟨"item1", 10, "Alimentação - Básica"⟩, ⟨"item2", 20, "Transporte"⟩,
                ⟨"item3", 30, "Lazer"⟩] 120,
            ["Alimentação - Básica", "Transporte", "Lazer"]⟩) := by
          rw [hc]
          rfl
      _ = some (.ok ⟨"Mercado", daysFromCivil 2025 10 12,
            [⟨"item1", 20, "Alimentação - Básica"⟩, ⟨"item2", 40, "Transporte"⟩,
              ⟨"item3", 60, "Lazer"⟩],
            ["Alimentação - Básica", "Transporte", "Lazer"]⟩) := by
          rw [hred]
  · exact hsum2

/-! ## C8: the keyword fallback order -/

/-- C8: on JSON-parse failure the fallback tries confirmation keywords, then
edit keywords, then help keywords, in that order, and an input matching none
of them yields action `account` — the fallback never yields `error`. -/
theorem C8_fallback_keyword_order (s : String) :
    ((confirm_keywords.any fun k => pyIn k (pyLower s)) = true →
      (process_user_input_fallback s).action = "confirm") ∧
    ((confirm_keywords.any fun k => pyIn k (pyLower s)) = false →
      (edit_keywords.any fun k => pyIn k (pyLower s)) = true →
      (process_user_input_fallback s).action = "edit") ∧
    ((confirm_keywords.any fun k => pyIn k (pyLower s)) = false →
      (edit_keywords.any fun k => pyIn k (pyLower s)) = false →
      (help_keywords.any fun k => pyIn k (pyLower s)) = true →
      (process_user_input_fallback s).action = "help") ∧
    ((confirm_keywords.any fun k => pyIn k (pyLower s)) = false →
      (edit_keywords.any fun k => pyIn k (pyLower s)) = false →
      (help_keywords.any fun k => pyIn k (pyLower s)) = false →
      (process_user_input_fallback s).action = "account") ∧
    (process_user_input_fallback s).action ≠ "error" := by
  have hcases : (process_user_input_fallback s).action = "confirm"
      ∨ (process_user_input_fallback s).action = "edit"
      ∨ (process_user_input_fallback s).action = "help"
      ∨ (process_user_input_fallback s).action = "account" := by
    simp only [process_user_input_fallback]
    split
    · left; rfl
    · split
      · right; left; rfl
      · split
        · right; right; left; rfl
        · right; right; right; rfl
  refine ⟨?_, ?_, ?_, ?_, ?_⟩
  · intro h1
    simp [process_user_input_fallback, h1]
  · intro h1 h2
    simp [process_user_input_fallback, h1, h2]
  · intro h1 h2 h3
    simp [process_user_input_fallback, h1, h2, h3]
  · intro h1 h2 h3
    simp [process_user_input_fallback, h1, h2, h3]
  · rcases hcases with h | h | h | h <;> rw [h] <;> decide

/-- Witness for C8 at an input matching no keyword group. -/
theorem C8_fallback_keyword_order_witness :
    (process_user_input_fallback "hello").action = "account" ∧
    (process_user_input_fallback "hello").action ≠ "error" :=
  ⟨(C8_fallback_keyword_order "hello").2.2.2.1 (by decide) (by decide) (by decide),
   (C8_fallback_keyword_order "hello").2.2.2.2⟩

/-! ## C9: context removal and persistence outcome -/

/-- A concrete conversation context for the C9 statements. -/
def ctxOne : UserContext :=
  ⟨"u", "t1", none, none, none, none, false⟩

/-- A concrete store holding `ctxOne` under thread id `t1`. -/
def storeOne : Store :=
  fun k => if k = "t1" then some ctxOne else none

/-- C9 counterexample: with the identified account present in the account
list but the ledger insert reporting complete failure — `(saved_count,
error_count) = (0, 1)` — the expense save handler still removes the context
from the store, contradicting the claim that a reported insert failure
leaves the context in place. -/
theorem C9_counterexample :
    save_transactions_store storeOne "t1" ["A"] "A" (0, 1) "t1" = none ∧
    storeOne "t1" = some ctxOne :=
  ⟨rfl, rfl⟩

/-- C9 amended: the unknown-account early return leaves the store unchanged
on the expense path, and the transfer path removes the context only when the
insert reports success; but the expense path, once the account is known,
removes the context regardless of the reported `(saved, error)` counts. -/
theorem C9_amended_removal (st : Store) (tid : String)
    (accounts : List String) (conta : String) (res : Nat × Nat) :
    (accounts ≠ [] → conta ∉ accounts →
      save_transactions_store st tid accounts conta res = st) ∧
    (conta ∈ accounts →
      save_transactions_store st tid accounts conta res = remove_context st tid) ∧
    save_transfer_store st tid false = st ∧
    save_transfer_store st tid true = remove_context st tid := by
  refine ⟨?_, ?_, rfl, rfl⟩
  · intro h1 h2
    simp [save_transactions_store, h1, h2]
  · intro h
    unfold save_transactions_store
    rw [if_neg (fun hcon => hcon.2 h)]

/-- Witness for C9 amended at concrete inputs. -/
theorem C9_amended_removal_witness :
    save_transactions_store storeOne "t1" ["A"] "B" (1, 0) = storeOne ∧
    save_transfer_store storeOne "t1" false = storeOne :=
  ⟨(C9_amended_removal storeOne "t1" ["A"] "B" (1, 0)).1 (by decide) (by decide),
   (C9_amended_removal storeOne "t1" ["A"] "B" (1, 0)).2.2.1⟩

/-! ## C10: the in-place category mutation -/

/-- Folding the in-place category assignment over a list of item ids sets
the category of exactly the listed objects. -/
theorem fold_setCategoria (target : String) (l : List Nat) (h : Heap) (j : Nat) :
    ((l.foldl (fun hh i => setCategoria hh i target) h).items j)
      = if j ∈ l then { h.items j with categoria := target } else h.items j := by
  induction l generalizing h with
  | nil => simp
  | cons a t ih =>
    simp only [List.foldl_cons]
    rw [ih (setCategoria h a target)]
    by_cases hj : j ∈ t
    · rw [if_pos hj, if_pos (List.mem_cons.mpr (Or.inr hj))]
      unfold setCategoria
      by_cases hja : j = a
      · subst hja
        simp
      · simp [hja]
    · rw [if_neg hj]
      unfold setCategoria
      by_cases hja : j = a
      · subst hja
        simp [List.mem_cons]
      · simp [hja, List.mem_cons, hj]

/-- C10: when the deterministic edit path finds a category keyword, the
returned `ClassificationDataRef` shares the very item ids of the input, and
the category assignment mutates the shared objects on the heap — every item
object of the input now carries the new category, and any input item whose
category differed is no longer equal to its pre-edit value. -/
theorem C10_category_edit_mutates_input (h : Heap)
    (current : ClassificationDataRef) (cmd target : String)
    (htc : targetCategory (pyLower cmd) = some target) :
    (∀ i ∈ current.itens,
      (((edit_det_category_heap h current target).1).items i).categoria = target) ∧
    ((edit_det_category_heap h current target).2).itens = current.itens ∧
    (∀ i ∈ current.itens, (h.items i).categoria ≠ target →
      ((edit_det_category_heap h current target).1).items i ≠ h.items i) := by
  refine ⟨?_, rfl, ?_⟩
  · intro i hi
    show ((current.itens.foldl (fun hh i => setCategoria hh i target) h).items i).categoria
        = target
    rw [fold_setCategoria, if_pos hi]
  · intro i hi hne hcontra
    have hfi := fold_setCategoria target current.itens h i
    rw [if_pos hi] at hfi
    have hfi2 : ((edit_det_category_heap h current target).1).items i
        = { h.items i with categoria := target } := hfi
    rw [hfi2] at hcontra
    have := congrArg TransactionItem.categoria hcontra
    exact hne this.symm

/-- Witness for C10 at a concrete heap, context and the `higiene` keyword. -/
theorem C10_category_edit_mutates_input_witness :
    ((edit_det_category_heap ⟨fun _ => ⟨"a", 1, "c"⟩⟩
        ⟨"X", 0, [0], ["c"]⟩ "Higiene & Beleza - Básicos").1.items 0).categoria
      = "Higiene & Beleza - Básicos" ∧
    ((edit_det_category_heap ⟨fun _ => ⟨"a", 1, "c"⟩⟩
        ⟨"X", 0, [0], ["c"]⟩ "Higiene & Beleza - Básicos").2).itens = [0] :=
  ⟨(C10_category_edit_mutates_input ⟨fun _ => ⟨"a", 1, "c"⟩⟩
      ⟨"X", 0, [0], ["c"]⟩ "higiene" "Higiene & Beleza - Básicos" (by decide)).1
      0 (by decide),
   (C10_category_edit_mutates_input ⟨fun _ => ⟨"a", 1, "c"⟩⟩
      ⟨"X", 0, [0], ["c"]⟩ "higiene" "Higiene & Beleza - Básicos" (by decide)).2.1⟩

end Orcamento
